import Mathlib

/-!
Shallow embedding of the h-c notification bus and watchdog monitors.

Modules embedded:
  src/bot/notifications/events.py   (Severity, Event, post-init traceback derivation)
  src/bot/notifications/base.py     (BaseNotifier, accepts)
  src/bot/notifications/bus.py      (NotificationBus: register, unregister, emit, history)
  src/bot/notifications/file_notifier.py (FileNotifier.send)
  src/watchdog/health_checker.py    (HealthChecker failure-streak state machine)
  src/watchdog/host_monitor.py      (HostMonitor threshold/hysteresis checks)
  src/watchdog/docker_monitor.py    (DockerMonitor restart-loop sliding window)

Asynchronous delivery is modelled by giving each notifier a send function of
type Event → Except Exc Bool: Except.error models a raised exception inside the
coroutine, which asyncio.gather with return_exceptions set collects instead of
propagating; emit is therefore a total function, matching the fact that notifier
exceptions never escape emit.
-/

namespace HC

/-! Model of events.py -/

/-- Severity levels, mapped 1:1 onto Python logging levels, compared by value
as the IntEnum in the source is. -/
inductive Severity where
  | DEBUG
  | INFO
  | WARNING
  | ERROR
  | CRITICAL
  deriving DecidableEq, Repr

/-- The integer value of the IntEnum member (logging levels). -/
def Severity.level : Severity → Nat
  | .DEBUG => 10
  | .INFO => 20
  | .WARNING => 30
  | .ERROR => 40
  | .CRITICAL => 50

/-- A Python exception object: its type name, message and the formatted stack
frames of its traceback attribute (possibly empty). -/
structure Exc where
  typeName : String
  message : String
  frames : List String
  deriving DecidableEq, Repr

/-- Model of joining traceback.format_exception output: the formatted stack
frames followed by the final line, which names the exception type and message
and ends with a newline. -/
def formatException (e : Exc) : String :=
  String.join e.frames ++ e.typeName ++ ": " ++ e.message ++ "\n"

/-- An event on the notification bus (dataclass Event). The timestamp is an
abstract instant. -/
structure Event where
  severity : Severity
  category : String
  message : String
  timestamp : Nat := 0
  metadata : List (String × String) := []
  exception : Option Exc := none
  traceback_str : String := ""
  source : String := ""
  deriving DecidableEq, Repr

/-- Event.__post_init__: auto-generate the traceback text when an exception is
attached and no traceback text was supplied. A BaseException instance is always
truthy and a string is falsy exactly when empty. -/
def Event.postInit (e : Event) : Event :=
  match e.exception with
  | some exc =>
      if e.traceback_str = "" then { e with traceback_str := formatException exc }
      else e
  | none => e

/-! Model of base.py -/

/-- A notifier as the bus sees it: identity, severity gate, enabled gate, and
the behaviour of its send coroutine on each event. -/
structure BaseNotifier where
  name : String
  min_severity : Severity
  enabled : Bool
  send : Event → Except Exc Bool

/-- BaseNotifier.accepts: enabled and event severity at least the minimum. -/
def BaseNotifier.accepts (n : BaseNotifier) (e : Event) : Bool :=
  n.enabled && decide (n.min_severity.level ≤ e.severity.level)

/-! Model of bus.py -/

/-- The mutable state of a NotificationBus instance. __init__ hardcodes the
history bound to 100. -/
structure NotificationBus where
  notifiers : List BaseNotifier := []
  event_log : List Event := []
  max_log_size : Nat := 100

/-- A freshly constructed bus (NotificationBus.__init__). -/
def NotificationBus.init : NotificationBus := {}

/-- NotificationBus.register: append the notifier to the list. -/
def NotificationBus.register (b : NotificationBus) (n : BaseNotifier) :
    NotificationBus :=
  { b with notifiers := b.notifiers ++ [n] }

/-- NotificationBus.unregister: drop every notifier with the given name,
reporting whether any was removed. -/
def NotificationBus.unregister (b : NotificationBus) (name : String) :
    NotificationBus × Bool :=
  let rest := b.notifiers.filter (fun n => n.name ≠ name)
  ({ b with notifiers := rest }, decide (rest.length < b.notifiers.length))

/-- Append an event to the history, then truncate to the last maxSize entries
when the bound is exceeded (the list slice keeping the last maxSize elements). -/
def boundedAppend (maxSize : Nat) (log : List Event) (e : Event) : List Event :=
  let l := log ++ [e]
  if l.length > maxSize then l.drop (l.length - maxSize) else l

/-- The notifiers emit will attempt delivery to: exactly those whose accepts
returns true, in registration order. -/
def NotificationBus.accepted (b : NotificationBus) (e : Event) :
    List BaseNotifier :=
  b.notifiers.filter (fun n => n.accepts e)

/-- The per-notifier outcome the bus records after gather: an exception becomes
False, otherwise the boolean the send returned. -/
def sendOutcome (n : BaseNotifier) (e : Event) : Bool :=
  match n.send e with
  | .ok b => b
  | .error _ => false

/-- NotificationBus.emit: append to the bounded history, then attempt delivery
to every accepting notifier and return the name-to-outcome map (as the ordered
association list the dict is built from). With no accepting notifier the map is
empty. -/
def NotificationBus.emit (b : NotificationBus) (e : Event) :
    NotificationBus × List (String × Bool) :=
  let log := boundedAppend b.max_log_size b.event_log e
  let results := (b.accepted e).map (fun n => (n.name, sendOutcome n e))
  ({ b with event_log := log }, results)

/-! Model of file_notifier.py -/

/-- The per-instance state of a FileNotifier that send reads: whether the
constructor managed to set up the rotating file handler (the internal file
logger, None on setup failure) and the console_output flag. -/
structure FileNotifierState where
  file_logger : Option Unit
  console_output : Bool

/-- FileNotifier.send. The event is rendered with format_plain outside the
try block, so a rendering failure propagates as an exception; inside the try
block the file write (attempted only when the file logger exists) and the
console print may each raise, which the except clause converts into a False
return. The booleans say whether each effectful step raises. -/
def fileNotifierSend (st : FileNotifierState) (renderRaises fileWriteRaises
    printRaises : Bool) : Except Unit Bool :=
  if renderRaises then .error ()
  else if st.file_logger.isSome && fileWriteRaises then .ok false
  else if st.console_output && printRaises then .ok false
  else .ok true

/-! Model of health_checker.py -/

/-- The alerting state of a HealthChecker that its loop reads and writes. -/
structure HState where
  consecutive_failures : Nat
  is_healthy : Bool
  alerted : Bool
  deriving DecidableEq, Repr

/-- Initial HealthChecker state (__init__). -/
def HState.init : HState := ⟨0, true, false⟩

/-- One iteration of HealthChecker._loop after a check outcome, returning the
new state and the severities of the callbacks fired during the iteration. On
success: fire the info recovery callback when unhealthy and already alerted,
then reset. On failure: bump the streak; when it reaches the threshold and no
alert is pending for this downtime, mark unhealthy, latch alerted and fire the
error callback. -/
def healthStep (threshold : Nat) (s : HState) (isOk : Bool) :
    HState × List String :=
  if isOk then
    let notices := if !s.is_healthy && s.alerted then ["info"] else []
    (⟨0, true, false⟩, notices)
  else
    let cf := s.consecutive_failures + 1
    if cf ≥ threshold && !s.alerted then
      (⟨cf, false, true⟩, ["error"])
    else
      ({ s with consecutive_failures := cf }, [])

/-- Run the health loop over a list of check outcomes, collecting the list of
callback severities fired at each iteration. -/
def healthRun (threshold : Nat) (s : HState) :
    List Bool → HState × List (List String)
  | [] => (s, [])
  | ok :: rest =>
      let p := healthStep threshold s ok
      let q := healthRun threshold p.1 rest
      (q.1, p.2 :: q.2)

/-! Model of host_monitor.py -/

/-- The callback severity a new threshold alert uses: error at 95 percent or
above, warning otherwise. -/
def hmNotice (value : ℚ) : String :=
  if value ≥ 95 then "error" else "warning"

/-- One metric's pass through HostMonitor._check_thresholds: a new alert fires
when the value reaches the threshold and no alert is active; recovery fires
when an alert is active and the value drops below nine tenths of the threshold
(the hysteresis margin); otherwise the alert flag is unchanged. Returns the new
alert-active flag and the severities of the callbacks fired. -/
def hmStep (threshold : ℚ) (active : Bool) (value : ℚ) : Bool × List String :=
  if value ≥ threshold ∧ active = false then (true, [hmNotice value])
  else if value < threshold * (9 / 10) ∧ active = true then (false, ["info"])
  else (active, [])

/-- Feed one metric a sequence of sampled values, collecting the callbacks
fired at each sample. -/
def hmRun (threshold : ℚ) (active : Bool) :
    List ℚ → Bool × List (List String)
  | [] => (active, [])
  | v :: rest =>
      let p := hmStep threshold active v
      let q := hmRun threshold p.1 rest
      (q.1, p.2 :: q.2)

/-- The three per-metric alert-active flags of a HostMonitor. -/
structure AlertState where
  cpu : Bool
  ram : Bool
  disk : Bool
  deriving DecidableEq, Repr

/-- The three configured thresholds. -/
structure Thresholds where
  cpu : ℚ
  ram : ℚ
  disk : ℚ

/-- HostMonitor._check_thresholds: process cpu, ram and disk in order, each
against its own threshold and its own alert flag, concatenating the callbacks
fired. -/
def checkThresholds (th : Thresholds) (s : AlertState)
    (cpuV ramV diskV : ℚ) : AlertState × List String :=
  let c := hmStep th.cpu s.cpu cpuV
  let r := hmStep th.ram s.ram ramV
  let d := hmStep th.disk s.disk diskV
  (⟨c.1, r.1, d.1⟩, c.2 ++ r.2 ++ d.2)

/-! Model of docker_monitor.py -/

/-- Module constant RESTART_LOOP_COUNT. -/
def RESTART_LOOP_COUNT : Nat := 3

/-- Module constant RESTART_LOOP_WINDOW (seconds). -/
def RESTART_LOOP_WINDOW : ℚ := 300

/-- Appending to a deque with a maxlen: when full, the oldest element is
discarded from the left. -/
def dequeAppend (maxlen : Nat) (d : List ℚ) (x : ℚ) : List ℚ :=
  let l := d ++ [x]
  if l.length > maxlen then l.drop (l.length - maxlen) else l

/-- DockerMonitor._check_restart_loop: record the current instant in the
restart-times deque (whose maxlen is twice RESTART_LOOP_COUNT, per __init__),
then report a loop when at least RESTART_LOOP_COUNT of the held instants fall
within the trailing window. Returns the updated deque and the verdict. -/
def checkRestartLoop (times : List ℚ) (now : ℚ) : List ℚ × Bool :=
  let times2 := dequeAppend (RESTART_LOOP_COUNT * 2) times now
  let recent := times2.filter (fun t => decide (now - t < RESTART_LOOP_WINDOW))
  (times2, decide (recent.length ≥ RESTART_LOOP_COUNT))

/-- The DockerMonitor state that start-event processing touches. -/
structure DState where
  restart_times : List ℚ
  restart_count : Nat
  deriving DecidableEq, Repr

/-- The start branch of DockerMonitor._process_event: bump the restart count,
run the restart-loop check at the current instant, and fire the critical loop
alert when a loop is detected, else the warning restart notice when this is not
the first start. Returns the new state and the severities fired. -/
def processStart (s : DState) (now : ℚ) : DState × List String :=
  let count := s.restart_count + 1
  let p := checkRestartLoop s.restart_times now
  let notices :=
    if p.2 then ["critical"]
    else if count > 1 then ["warning"]
    else []
  (⟨p.1, count⟩, notices)

/-- Process a sequence of start events at the given instants, collecting the
callbacks fired at each. -/
def dockerRun (s : DState) : List ℚ → DState × List (List String)
  | [] => (s, [])
  | t :: rest =>
      let p := processStart s t
      let q := dockerRun p.1 rest
      (q.1, p.2 :: q.2)

/-! Concrete instances used by witnesses -/

/-- A plain INFO event with no attached exception. -/
def eInfo : Event := { severity := .INFO, category := "system", message := "m" }

/-- An ERROR event carrying a ValueError and no supplied traceback text. -/
def eCrash : Event :=
  { severity := .ERROR
    category := "crash"
    message := "m"
    exception := some ⟨"ValueError", "boom", []⟩ }

/-- A notifier whose send always raises. -/
def nFail : BaseNotifier :=
  ⟨"fail", .DEBUG, true, fun _ => .error ⟨"RuntimeError", "boom", []⟩⟩

/-- A notifier whose send always succeeds. -/
def nOk : BaseNotifier := ⟨"ok", .DEBUG, true, fun _ => .ok true⟩

/-- A bus holding one always-failing and one always-succeeding notifier. -/
def busFailOk : NotificationBus := { notifiers := [nFail, nOk] }

/-- Two distinct notifiers sharing the name "file". -/
def nDupA : BaseNotifier := ⟨"file", .INFO, true, fun _ => .ok true⟩

/-- Second notifier with the duplicated name "file". -/
def nDupB : BaseNotifier := ⟨"file", .DEBUG, true, fun _ => .ok true⟩

/-! Helper lemmas -/

/-- The joined format_exception output always ends in the exception-naming
line and is therefore never the empty string. -/
theorem formatException_ne_empty (e : Exc) : formatException e ≠ "" := by
  intro h
  have h2 : (formatException e).length = 0 := by rw [h]; rfl
  simp only [formatException, String.length_append] at h2
  have h3 : ("\n").length = 1 := rfl
  omega

/-! Claim theorems -/

/-- C9: every Event constructed with a non-null fault has, immediately after
construction, a non-empty traceback text: if none was supplied, post-init
derives one from the fault. -/
theorem event_fault_implies_trace_nonempty (e : Event)
    (h : e.exception ≠ none) :
    (Event.postInit e).traceback_str ≠ "" := by
  match hx : e.exception with
  | none => exact absurd hx h
  | some exc =>
      unfold Event.postInit
      rw [hx]
      by_cases ht : e.traceback_str = ""
      · simpa [ht] using formatException_ne_empty exc
      · simp [ht]

/-- C9 witness: a concrete event carrying a ValueError and no supplied
traceback gets a non-empty derived traceback. -/
theorem event_fault_implies_trace_nonempty_witness :
    (Event.postInit eCrash).traceback_str ≠ "" :=
  event_fault_implies_trace_nonempty _ (by decide)

/-- C10: when the FileNotifier constructor failed to set up the file handler
(the file logger is None), send returns True for every event whose rendering
and console print do not raise, whatever the console flag and however the
file write would have behaved: the setup failure is never surfaced as a
per-event delivery failure. -/
theorem file_sink_setup_failure_not_surfaced
    (consoleOut fileWriteRaises : Bool) :
    fileNotifierSend ⟨none, consoleOut⟩ false fileWriteRaises false
      = .ok true := by
  simp [fileNotifierSend]

/-- C7 counterexample: registering a second notifier named "file" does not
replace the first; the bus then holds two notifiers with the same name, so
names on the bus are not unique. -/
theorem register_duplicate_name_not_replaced :
    ¬ ((((NotificationBus.init.register nDupA).register nDupB).notifiers.map
        (fun n => n.name)).Nodup) := by
  decide

/-- C7 amended: register unconditionally appends the notifier, even when one
with the same name is already registered, so after a sequence of register
calls the bus may hold several notifiers with the same name. -/
theorem register_appends_names_not_unique :
    (∀ (b : NotificationBus) (n : BaseNotifier),
        (b.register n).notifiers = b.notifiers ++ [n]) ∧
    ¬ ((((NotificationBus.init.register nDupA).register nDupB).notifiers.map
        (fun n => n.name)).Nodup) :=
  ⟨fun _ _ => rfl, by decide⟩

/-- C3: on a bus with two registered accepting notifiers, one whose send
always fails (raises or returns False) and one whose send always returns
True, emit returns False for the failing notifier and True for the succeeding
one; the raised exception is absorbed into the False outcome and never
propagates, emit being total. -/
theorem emit_isolates_failing_notifier
    (b : NotificationBus) (e : Event) (nf ns : BaseNotifier)
    (hreg : b.notifiers = [nf, ns])
    (haf : nf.accepts e = true) (has : ns.accepts e = true)
    (hf : ∀ ev, nf.send ev = .ok false ∨ ∃ ex, nf.send ev = .error ex)
    (hs : ∀ ev, ns.send ev = .ok true) :
    (b.emit e).2 = [(nf.name, false), (ns.name, true)] := by
  have hacc : b.accepted e = [nf, ns] := by
    simp [NotificationBus.accepted, hreg, List.filter, haf, has]
  have hfo : sendOutcome nf e = false := by
    rcases hf e with h | ⟨ex, h⟩ <;> simp [sendOutcome, h]
  have hso : sendOutcome ns e = true := by simp [sendOutcome, hs e]
  simp [NotificationBus.emit, hacc, hfo, hso]

/-- C3 witness: the concrete two-notifier bus yields the expected map on a
plain INFO event. -/
theorem emit_isolates_failing_notifier_witness :
    (busFailOk.emit eInfo).2 = [("fail", false), ("ok", true)] :=
  emit_isolates_failing_notifier busFailOk eInfo nFail nOk rfl rfl rfl
    (fun _ => Or.inr ⟨⟨"RuntimeError", "boom", []⟩, rfl⟩) (fun _ => rfl)

/-- A family of pairwise-distinct events, tagged by timestamp. -/
def evNat (i : Nat) : Event :=
  { severity := .INFO, category := "", message := "", timestamp := i }

/-- The bus state after emitting a sequence of events. -/
def emitFold (b : NotificationBus) (es : List Event) : NotificationBus :=
  es.foldl (fun acc e => (acc.emit e).1) b

/-- One bounded append never leaves the history above the bound. -/
theorem boundedAppend_length_le (m : Nat) (log : List Event) (e : Event) :
    (boundedAppend m log e).length ≤ m := by
  simp only [boundedAppend]
  split
  · simp only [List.length_drop]
    omega
  · next hc =>
      omega

/-- Emitting preserves the configured history bound. -/
theorem emitFold_max_log_size (es : List Event) :
    ∀ b : NotificationBus, (emitFold b es).max_log_size = b.max_log_size := by
  induction es with
  | nil => intro b; rfl
  | cons x xs ih =>
      intro b
      simp only [emitFold, List.foldl_cons] at ih ⊢
      rw [ih]
      rfl

/-- C1: emit attempts delivery to a registered notifier, and its name appears
in the returned map, exactly when the notifier is enabled and its minimum
severity is at most the event severity; when no registered notifier accepts
the event, the returned map is empty (and emit, being total, does not error).
The name-in-map reading uses the bus invariant that registered names are
distinct. -/
theorem emit_attempts_iff_accepts
    (b : NotificationBus) (e : Event) (n : BaseNotifier)
    (hn : n ∈ b.notifiers)
    (hnd : (b.notifiers.map (fun m => m.name)).Nodup) :
    (n ∈ b.accepted e ↔ n.accepts e = true) ∧
    ((∃ r, (n.name, r) ∈ (b.emit e).2) ↔ n.accepts e = true) ∧
    ((∀ m ∈ b.notifiers, m.accepts e = false) → (b.emit e).2 = []) := by
  have hres : (b.emit e).2
      = (b.accepted e).map (fun m => (m.name, sendOutcome m e)) := rfl
  have hmem : ∀ m, m ∈ b.accepted e ↔ m ∈ b.notifiers ∧ m.accepts e = true := by
    intro m
    simp [NotificationBus.accepted, List.mem_filter]
  refine ⟨⟨fun h => ((hmem n).mp h).2, fun h => (hmem n).mpr ⟨hn, h⟩⟩, ⟨?_, ?_⟩, ?_⟩
  · rintro ⟨r, hr⟩
    rw [hres] at hr
    rcases List.mem_map.mp hr with ⟨m, hm, hEq⟩
    have hm2 := (hmem m).mp hm
    have hname : m.name = n.name := congrArg Prod.fst hEq
    have hmn : m = n := List.inj_on_of_nodup_map hnd hm2.1 hn hname
    rw [← hmn]
    exact hm2.2
  · intro h
    refine ⟨sendOutcome n e, ?_⟩
    rw [hres]
    exact List.mem_map.mpr ⟨n, (hmem n).mpr ⟨hn, h⟩, rfl⟩
  · intro h
    rw [hres]
    have hnil : b.accepted e = [] := by
      unfold NotificationBus.accepted
      rw [List.filter_eq_nil_iff]
      intro a ha
      simp [h a ha]
    rw [hnil]
    rfl

/-- C1 witness: on the concrete two-notifier bus, the always-failing notifier
accepts the INFO event and the equivalences hold. -/
theorem emit_attempts_iff_accepts_witness :
    (nFail ∈ busFailOk.accepted eInfo ↔ nFail.accepts eInfo = true) ∧
    ((∃ r, (nFail.name, r) ∈ (busFailOk.emit eInfo).2) ↔
      nFail.accepts eInfo = true) ∧
    ((∀ m ∈ busFailOk.notifiers, m.accepts eInfo = false) →
      (busFailOk.emit eInfo).2 = []) :=
  emit_attempts_iff_accepts busFailOk eInfo nFail (by simp [busFailOk])
    (by decide)

set_option maxRecDepth 10000

/-- C2: from any bus state respecting the history bound, any sequence of
emits keeps the history at or below the bound (hardcoded to 100 by the
constructor); and concretely, after 101 emits of pairwise-distinct events on
a fresh bus, the first event is gone from the history, the last event is the
final element, and the history holds exactly 100 events. -/
theorem emit_history_capacity_and_ring
    (b : NotificationBus) (es : List Event)
    (h : b.event_log.length ≤ b.max_log_size) :
    ((emitFold b es).event_log.length ≤ b.max_log_size) ∧
    (evNat 0 ∉
        (emitFold NotificationBus.init ((List.range 101).map evNat)).event_log ∧
      (emitFold NotificationBus.init
          ((List.range 101).map evNat)).event_log.getLast? = some (evNat 100) ∧
      (emitFold NotificationBus.init
          ((List.range 101).map evNat)).event_log.length = 100) := by
  constructor
  · have hlen : ∀ (l : List Event) (bb : NotificationBus),
        bb.event_log.length ≤ bb.max_log_size →
        (emitFold bb l).event_log.length ≤ (emitFold bb l).max_log_size := by
      intro l
      induction l with
      | nil =>
          intro bb hb
          exact hb
      | cons x xs ih =>
          intro bb hb
          simp only [emitFold, List.foldl_cons] at ih ⊢
          exact ih _ (boundedAppend_length_le bb.max_log_size bb.event_log x)
    have := hlen es b h
    rwa [emitFold_max_log_size] at this
  · decide

/-- C2 witness: the fresh bus satisfies the bound hypothesis, and one emit on
it keeps the history within 100 entries while the concrete 101-emit ring facts
hold. -/
theorem emit_history_capacity_and_ring_witness :
    ((emitFold NotificationBus.init [eInfo]).event_log.length ≤
        NotificationBus.init.max_log_size) ∧
    (evNat 0 ∉
        (emitFold NotificationBus.init ((List.range 101).map evNat)).event_log ∧
      (emitFold NotificationBus.init
          ((List.range 101).map evNat)).event_log.getLast? = some (evNat 100) ∧
      (emitFold NotificationBus.init
          ((List.range 101).map evNat)).event_log.length = 100) :=
  emit_history_capacity_and_ring NotificationBus.init [eInfo] (by decide)

/-- Once the alert for the current downtime is latched, further consecutive
failures only grow the streak and fire no callback. -/
theorem healthRun_failures_alerted (k : Nat) :
    ∀ (cf : Nat) (hl : Bool),
      healthRun 3 ⟨cf, hl, true⟩ (List.replicate k false)
        = (⟨cf + k, hl, true⟩, List.replicate k []) := by
  induction k with
  | zero =>
      intro cf hl
      simp [healthRun]
  | succ n ih =>
      intro cf hl
      simp only [List.replicate_succ, healthRun]
      rw [show healthStep 3 ⟨cf, hl, true⟩ false
            = (⟨cf + 1, hl, true⟩, []) from by simp [healthStep]]
      rw [ih (cf + 1) hl]
      have hcf : cf + 1 + n = cf + (n + 1) := by omega
      simp [hcf, List.replicate_succ]

/-- C4: with threshold 3, a run of three or more consecutive failures fires
exactly one error callback, on the third failure, and none on any later
failure of the streak; the first subsequent success fires exactly one info
recovery callback and resets the streak to 0. -/
theorem health_threshold_alert_once (k : Nat) :
    healthRun 3 HState.init (false :: false :: false :: List.replicate k false)
        = (⟨3 + k, false, true⟩, [[], [], ["error"]] ++ List.replicate k []) ∧
    healthStep 3
        (healthRun 3 HState.init
          (false :: false :: false :: List.replicate k false)).1 true
        = (⟨0, true, false⟩, ["info"]) := by
  have h1 : healthStep 3 HState.init false = (⟨1, true, false⟩, []) := by
    decide
  have h2 : healthStep 3 ⟨1, true, false⟩ false = (⟨2, true, false⟩, []) := by
    decide
  have h3 : healthStep 3 ⟨2, true, false⟩ false
      = (⟨3, false, true⟩, ["error"]) := by decide
  have hrun : healthRun 3 HState.init
      (false :: false :: false :: List.replicate k false)
      = (⟨3 + k, false, true⟩, [[], [], ["error"]] ++ List.replicate k []) := by
    simp only [healthRun, h1, h2, h3, healthRun_failures_alerted k 3 false]
    simp
  refine ⟨hrun, ?_⟩
  rw [hrun]
  simp [healthStep]

/-- C5: with threshold 90, the sample sequence 85, 91, 89, 82 fires exactly
one alert callback (at 91, a warning since 91 is below 95) and no recovery,
89 and 82 being at or above the hysteresis level 81; the sequence 85, 91, 79
fires exactly one alert and one recovery; and in a full pass over the three
metrics, each metric's new alert flag is the step function of its own
threshold, its own previous flag and its own value only. -/
theorem host_monitor_hysteresis :
    hmRun 90 false [85, 91, 89, 82] = (true, [[], ["warning"], [], []]) ∧
    hmRun 90 false [85, 91, 79] = (false, [[], ["warning"], ["info"]]) ∧
    (∀ (th : Thresholds) (s : AlertState) (c r d : ℚ),
      (checkThresholds th s c r d).1.cpu = (hmStep th.cpu s.cpu c).1 ∧
      (checkThresholds th s c r d).1.ram = (hmStep th.ram s.ram r).1 ∧
      (checkThresholds th s c r d).1.disk = (hmStep th.disk s.disk d).1) := by
  refine ⟨?_, ?_, fun th s c r d => ⟨rfl, rfl, rfl⟩⟩
  · norm_num [hmRun, hmStep, hmNotice]
  · norm_num [hmRun, hmStep, hmNotice]

/-- C6: with loop threshold 3 and window 300 seconds, three start events whose
instants span at most 100 seconds fire the critical restart-loop callback
exactly once, on the third start (the second start fires only the ordinary
restart warning); three start events each 400 seconds apart fire no
restart-loop callback at all. -/
theorem docker_restart_loop_detection
    (t1 t2 t3 : ℚ) (h12 : t1 ≤ t2) (h23 : t2 ≤ t3) (hspan : t3 - t1 ≤ 100) :
    (dockerRun ⟨[], 0⟩ [t1, t2, t3]).2 = [[], ["warning"], ["critical"]] ∧
    (∀ t : ℚ, (dockerRun ⟨[], 0⟩ [t, t + 400, t + 800]).2
        = [[], ["warning"], ["warning"]]) := by
  have w : RESTART_LOOP_WINDOW = (300 : ℚ) := rfl
  constructor
  · have d11 : decide (t1 - t1 < RESTART_LOOP_WINDOW) = true :=
      decide_eq_true (by rw [w]; linarith)
    have d21 : decide (t2 - t1 < RESTART_LOOP_WINDOW) = true :=
      decide_eq_true (by rw [w]; linarith)
    have d22 : decide (t2 - t2 < RESTART_LOOP_WINDOW) = true :=
      decide_eq_true (by rw [w]; linarith)
    have d31 : decide (t3 - t1 < RESTART_LOOP_WINDOW) = true :=
      decide_eq_true (by rw [w]; linarith)
    have d32 : decide (t3 - t2 < RESTART_LOOP_WINDOW) = true :=
      decide_eq_true (by rw [w]; linarith)
    have d33 : decide (t3 - t3 < RESTART_LOOP_WINDOW) = true :=
      decide_eq_true (by rw [w]; linarith)
    have t0 : decide ((0 : ℚ) < RESTART_LOOP_WINDOW) = true :=
      decide_eq_true (by rw [w]; norm_num)
    simp [dockerRun, processStart, checkRestartLoop, dequeAppend,
      RESTART_LOOP_COUNT, List.filter_cons, List.filter_nil,
      d11, d21, d22, d31, d32, d33, t0]
  · intro t
    have f11 : decide (t - t < RESTART_LOOP_WINDOW) = true :=
      decide_eq_true (by rw [w]; linarith)
    have f21 : decide (t + 400 - t < RESTART_LOOP_WINDOW) = false :=
      decide_eq_false (by rw [w]; intro h; linarith)
    have f22 : decide (t + 400 - (t + 400) < RESTART_LOOP_WINDOW) = true :=
      decide_eq_true (by rw [w]; linarith)
    have f31 : decide (t + 800 - t < RESTART_LOOP_WINDOW) = false :=
      decide_eq_false (by rw [w]; intro h; linarith)
    have f32 : decide (t + 800 - (t + 400) < RESTART_LOOP_WINDOW) = false :=
      decide_eq_false (by rw [w]; intro h; linarith)
    have f33 : decide (t + 800 - (t + 800) < RESTART_LOOP_WINDOW) = true :=
      decide_eq_true (by rw [w]; linarith)
    have t0 : decide ((0 : ℚ) < RESTART_LOOP_WINDOW) = true :=
      decide_eq_true (by rw [w]; norm_num)
    have f400 : decide ((400 : ℚ) < RESTART_LOOP_WINDOW) = false :=
      decide_eq_false (by rw [w]; norm_num)
    have f800 : decide ((800 : ℚ) < RESTART_LOOP_WINDOW) = false :=
      decide_eq_false (by rw [w]; norm_num)
    have f8m4 : decide ((800 : ℚ) - 400 < RESTART_LOOP_WINDOW) = false :=
      decide_eq_false (by rw [w]; norm_num)
    simp [dockerRun, processStart, checkRestartLoop, dequeAppend,
      RESTART_LOOP_COUNT, List.filter_cons, List.filter_nil,
      f11, f21, f22, f31, f32, f33, t0, f400, f800, f8m4]

/-- C6 witness: the concrete instants 0, 50, 100 satisfy the within-100s
hypotheses and exhibit the single critical alert on the third start. -/
theorem docker_restart_loop_detection_witness :
    (dockerRun ⟨[], 0⟩ [0, 50, 100]).2 = [[], ["warning"], ["critical"]] ∧
    (∀ t : ℚ, (dockerRun ⟨[], 0⟩ [t, t + 400, t + 800]).2
        = [[], ["warning"], ["warning"]]) :=
  docker_restart_loop_detection 0 50 100 (by norm_num) (by norm_num)
    (by norm_num)

/-- C8 counterexample: after four recorded restarts the sliding window holds
four instants, more than the loop threshold K = 3: the window's capacity is
not K. -/
theorem restart_window_exceeds_threshold_capacity :
    ¬ ((dockerRun ⟨[], 0⟩ [0, 1, 2, 3]).1.restart_times.length
        ≤ RESTART_LOOP_COUNT) := by
  norm_num [dockerRun, processStart, checkRestartLoop, dequeAppend,
    RESTART_LOOP_COUNT, RESTART_LOOP_WINDOW]

/-- C8 amended: the sliding window holds at most the last 2K = 6 restart
instants (the deque maxlen is twice the loop threshold), with the oldest
instant evicted when one is recorded at capacity; loop detection reports
whether at least K of the held instants fall within the trailing window
duration. -/
theorem restart_window_capacity_eviction_detection
    (d df : List ℚ) (x : ℚ) (times : List ℚ) (now : ℚ)
    (hdf : df.length = RESTART_LOOP_COUNT * 2) :
    (dequeAppend (RESTART_LOOP_COUNT * 2) d x).length
        ≤ RESTART_LOOP_COUNT * 2 ∧
    dequeAppend (RESTART_LOOP_COUNT * 2) df x = df.tail ++ [x] ∧
    (checkRestartLoop times now).1
        = dequeAppend (RESTART_LOOP_COUNT * 2) times now ∧
    (checkRestartLoop times now).2
        = decide (RESTART_LOOP_COUNT ≤
            ((checkRestartLoop times now).1.filter
              (fun t => decide (now - t < RESTART_LOOP_WINDOW))).length) := by
  refine ⟨?_, ?_, rfl, rfl⟩
  · simp only [dequeAppend]
    split
    · simp only [List.length_drop]
      omega
    · next hc => omega
  · simp only [dequeAppend]
    rw [if_pos]
    · rw [show (df ++ [x]).length - RESTART_LOOP_COUNT * 2 = 1 from by
        simp only [List.length_append, List.length_cons, List.length_nil, hdf]
        omega]
      rw [@List.drop_append_of_le_length _ df [x] 1 (by
        simp only [RESTART_LOOP_COUNT] at hdf
        omega)]
      simp [List.drop_one]
    · simp only [List.length_append, List.length_cons, List.length_nil, hdf,
        gt_iff_lt]
      omega

/-- C8 amended witness: a full window of six zero instants evicts its oldest
entry when a seventh is recorded. -/
theorem restart_window_capacity_eviction_detection_witness :
    (dequeAppend (RESTART_LOOP_COUNT * 2) [] (1 : ℚ)).length
        ≤ RESTART_LOOP_COUNT * 2 ∧
    dequeAppend (RESTART_LOOP_COUNT * 2) (List.replicate 6 (0 : ℚ)) 1
        = (List.replicate 6 (0 : ℚ)).tail ++ [1] ∧
    (checkRestartLoop [] 0).1 = dequeAppend (RESTART_LOOP_COUNT * 2) [] 0 ∧
    (checkRestartLoop [] 0).2
        = decide (RESTART_LOOP_COUNT ≤
            (((checkRestartLoop [] 0).1).filter
              (fun t => decide ((0 : ℚ) - t < RESTART_LOOP_WINDOW))).length) :=
  restart_window_capacity_eviction_detection [] (List.replicate 6 (0 : ℚ))
    1 [] 0 rfl

end HC
